import Mathlib

/-!
# ops-bufmon.c: realm dispatch and BST trigger management

A shallow embedding of `src/ops-bufmon.c` (OpenSwitch OpenNSL plugin, buffer
monitoring) and theorems about it.

Conventions of the embedding

* C `int` values are `Int`.  The only arithmetic in the file is `q / 8 + 1`,
  `q % 8` and `x - 1`; C division and remainder truncate toward zero, which is
  `Int.tdiv` and `Int.tmod`.  `x - 1` on a value read from the bag is a
  32-bit subtraction (`wrap_int`); `q / 8 + 1` and `q % 8 - 1` cannot leave
  the range of `int`.
* C strings are `String`s (their character lists); a `char *` that may be
  `NULL` is an `Option String`.
* Calls into the OpenNSL library and into `bufmon_trigger_callback` are
  recorded, in program order, in a call trace (`List HwCall`).  What the
  library answers is given by an arbitrary responder `Hw`, which sees the
  whole history of calls made so far, so a response may depend on
  everything that happened earlier.
* `VLOG_DBG` logging is not modelled.
* Constants of headers that are not part of the file (`platform-defines.h`,
  `opennsl/*.h`) are the fields of `Platform`.
-/

namespace OpsBufmon

/-! ## Data model -/

/-- Enumerators of `opennsl_bst_stat_id_t` that `realm_list` names. -/
inductive opennsl_bst_stat_id_t where
  | opennslBstStatIdDevice
  | opennslBstStatIdEgrPool
  | opennslBstStatIdEgrMCastPool
  | opennslBstStatIdIngPool
  | opennslBstStatIdPortPool
  | opennslBstStatIdPriGroupShared
  | opennslBstStatIdPriGroupHeadroom
  | opennslBstStatIdUcast
  | opennslBstStatIdMcast
  | opennslBstStatIdEgrUCastPortShared
  | opennslBstStatIdEgrPortShared
  | opennslBstStatIdRQEQueue
  | opennslBstStatIdUcastGroup
  deriving DecidableEq, Repr

/-- Constants that come from headers outside `ops-bufmon.c`. -/
structure Platform where
  /-- The constant `MAX_SWITCH_UNIT_ID` of `platform-defines.h`: the highest hardware unit. -/
  MAX_SWITCH_UNIT_ID : Nat
  /-- Integer value of each `opennsl_bst_stat_id_t` enumerator. -/
  bst_stat_id : opennsl_bst_stat_id_t → Int
  /-- Integer value of the switch control `opennslSwitchBstEnable`. -/
  opennslSwitchBstEnable : Int
  /-- Integer value of the event `OPENNSL_SWITCH_EVENT_MMU_BST_TRIGGER`. -/
  OPENNSL_SWITCH_EVENT_MMU_BST_TRIGGER : Int

/-- The constant `OPENNSL_E_NONE`, the success code of `opennsl/error.h`. -/
def OPENNSL_E_NONE : Int := 0

/-- The sentinel `#define INVALID (-1)`. -/
def INVALID : Int := -1

/-- The enumeration `counter_operations_t`: the two operations the handlers test for. -/
inductive counter_operations_t where
  | GET_COUNTER_VALUE
  | SET_COUNTER_THRESHOLD
  deriving DecidableEq, Repr

/-- The fields of `bufmon_counter_info_t` that `ops-bufmon.c` touches.
`counter_vendor_specific_info` is the `smap`; its values are kept as the
integers `smap_get_int` reads from them. -/
structure bufmon_counter_info_t where
  hw_unit_id : Int
  name : Option String
  counter_vendor_specific_info : List (String × Int)
  counter_value : Int
  trigger_threshold : Int
  deriving DecidableEq, Repr

/-- One call leaving `ops-bufmon.c`, with the arguments passed by value.  For
`opennsl_cosq_bst_profile_set` the last argument is the value of
`counter->trigger_threshold` that the source assigns to `profile.byte`, as it
is before any conversion to the type of `byte`: the types of the two fields
are declared outside the file.  Thresholds in `0 .. 2^31 - 1` are held
unchanged by every integer type of 32 bits or more. -/
inductive HwCall where
  | opennsl_port_gport_get (unit port : Int)
  | opennsl_cosq_bst_stat_get (unit gport cosq bid options : Int)
  | opennsl_cosq_bst_profile_set (unit gport cosq bid byte : Int)
  | opennsl_cosq_bst_stat_sync (unit bid : Int)
  | opennsl_switch_control_get (unit type : Int)
  | opennsl_switch_control_set (unit type arg : Int)
  | opennsl_switch_event_register (unit : Int)
  | opennsl_switch_event_unregister (unit : Int)
  | bufmon_trigger_callback
  deriving DecidableEq, Repr

/-- The call trace, oldest call first. -/
abbrev Trace := List HwCall

/-- Responses of the OpenNSL library.  Every field receives the history of
calls made before this one and the arguments of the call.

* `port_gport_get` answers the return code and the content of the caller's
  `gport` variable after the call (the handle written by the library, or
  whatever the uninitialised variable holds when nothing was written).
* `bst_stat_get` and `switch_control_get` answer the return code and the
  value stored through the output pointer, `none` when nothing is stored.
* `bst_profile_set` and `switch_control_set` answer the return code.

The return codes of `opennsl_switch_event_register` and
`opennsl_switch_event_unregister` are discarded by the source, so they need
no responder; that of `opennsl_cosq_bst_stat_sync`, discarded as well, is an
argument of `realm_sync_all`. -/
structure Hw where
  port_gport_get : Trace → Int → Int → Int × Int
  bst_stat_get : Trace → Int → Int → Int → Int → Int → Int × Option Int
  bst_profile_set : Trace → Int → Int → Int → Int → Int → Int
  switch_control_get : Trace → Int → Int → Int × Option Int
  switch_control_set : Trace → Int → Int → Int → Int

/-- The check `OPENNSL_RV_ERROR_CHECK(_rv, ...)`: `true` when it executes its
`return`, that is when `_rv != OPENNSL_E_NONE`. -/
def OPENNSL_RV_ERROR_CHECK (rv : Int) : Bool := rv != OPENNSL_E_NONE

/-- The check `INPUT_PARAM_VALIDATE(_param)`: `true` when it executes its
`return`, that is when `_param == INVALID`. -/
def INPUT_PARAM_VALIDATE (param : Int) : Bool := param == INVALID

/-- The value an `int` holds when the mathematical result of an `int`
expression is `x`: `x` itself when `-2^31 ≤ x < 2^31`, and otherwise its
32-bit two's complement wrap, which is what the compiled subtraction
yields on overflow. -/
def wrap_int (x : Int) : Int := (x + 2 ^ 31) % 2 ^ 32 - 2 ^ 31

/-- The lookup `smap_get_int(smap, key, def)`: the integer stored under `key`, or `def`
when the key is absent. -/
def smap_get_int (smap : List (String × Int)) (key : String) (dflt : Int) : Int :=
  (smap.lookup key).getD dflt

/-- The function `strstr(haystack, needle)` of the C library: the offset of the first
occurrence of `needle` in `haystack`, `none` for `NULL`. -/
def strstr : List Char → List Char → Option Nat
  | [], needle => if needle.isEmpty then some 0 else none
  | c :: cs, needle =>
    if needle.isPrefixOf (c :: cs) then some 0
    else (strstr cs needle).map (· + 1)

/-! ## Addressing handlers -/

/-- The block every handler ends with,
`if (type == GET_COUNTER_VALUE) { rv = BCM_API_BST_STAT_GET(...) }
 else if (type == SET_COUNTER_THRESHOLD && counter->trigger_threshold)
 { profile.byte = ...; rv = BCM_API_BST_PROFILE_SET(...) }`,
at the address `(counter->hw_unit_id, gport, cosq, statid)`.  It yields the
new `rv` (the incoming one when neither branch runs), the counter and the
trace. -/
def bst_stat_get_or_profile_set (hw : Hw) (rv gport cosq statid : Int)
    (type : counter_operations_t) (counter : bufmon_counter_info_t) (tr : Trace) :
    Int × bufmon_counter_info_t × Trace :=
  if type = .GET_COUNTER_VALUE then
    let r := hw.bst_stat_get tr counter.hw_unit_id gport cosq statid 0
    (r.1, { counter with counter_value := r.2.getD counter.counter_value },
      tr ++ [.opennsl_cosq_bst_stat_get counter.hw_unit_id gport cosq statid 0])
  else if type = .SET_COUNTER_THRESHOLD ∧ counter.trigger_threshold ≠ 0 then
    let byte := counter.trigger_threshold
    (hw.bst_profile_set tr counter.hw_unit_id gport cosq statid byte, counter,
      tr ++ [.opennsl_cosq_bst_profile_set counter.hw_unit_id gport cosq statid byte])
  else
    (rv, counter, tr)

/-- The closing `OPENNSL_RV_ERROR_CHECK(rv, ...)` of a handler: it is the
last statement, so the function returns whether or not the check fires. -/
def final_rv_check (r : Int × bufmon_counter_info_t × Trace) :
    bufmon_counter_info_t × Trace :=
  if OPENNSL_RV_ERROR_CHECK r.1 then r.2 else r.2

/-- Signature of `bufmon_counter_handler`: `(statid, type, counter)`, acting on
the counter and the call trace. -/
abbrev Handler :=
  Hw → Int → counter_operations_t → bufmon_counter_info_t → Trace →
    bufmon_counter_info_t × Trace

def device_data_stats : Handler := fun hw statid type counter tr =>
  final_rv_check (bst_stat_get_or_profile_set hw OPENNSL_E_NONE 0 0 statid type counter tr)

def ingress_port_priority_group_stats : Handler := fun hw statid type counter tr =>
  let port := smap_get_int counter.counter_vendor_specific_info "port" INVALID
  if INPUT_PARAM_VALIDATE port then (counter, tr) else
  let pg := smap_get_int counter.counter_vendor_specific_info "priority-group" INVALID
  if INPUT_PARAM_VALIDATE pg then (counter, tr) else
  let g := hw.port_gport_get tr counter.hw_unit_id port
  let tr1 := tr ++ [.opennsl_port_gport_get counter.hw_unit_id port]
  if OPENNSL_RV_ERROR_CHECK g.1 then (counter, tr1) else
  final_rv_check
    (bst_stat_get_or_profile_set hw g.1 g.2 (wrap_int (pg - 1)) statid type counter tr1)

def ingress_port_service_pool_stats : Handler := fun hw statid type counter tr =>
  let port := smap_get_int counter.counter_vendor_specific_info "port" INVALID
  if INPUT_PARAM_VALIDATE port then (counter, tr) else
  let sp := smap_get_int counter.counter_vendor_specific_info "service-pool" INVALID
  if INPUT_PARAM_VALIDATE sp then (counter, tr) else
  let g := hw.port_gport_get tr counter.hw_unit_id port
  let tr1 := tr ++ [.opennsl_port_gport_get counter.hw_unit_id port]
  if OPENNSL_RV_ERROR_CHECK g.1 then (counter, tr1) else
  final_rv_check
    (bst_stat_get_or_profile_set hw g.1 g.2 (wrap_int (sp - 1)) statid type counter tr1)

def ingress_service_pool_stats : Handler := fun hw statid type counter tr =>
  let sp := smap_get_int counter.counter_vendor_specific_info "service-pool" INVALID
  if INPUT_PARAM_VALIDATE sp then (counter, tr) else
  final_rv_check
    (bst_stat_get_or_profile_set hw OPENNSL_E_NONE 0 (wrap_int (sp - 1)) statid type counter
      tr)

def egress_service_pool_stats : Handler := fun hw statid type counter tr =>
  let sp := smap_get_int counter.counter_vendor_specific_info "service-pool" INVALID
  if INPUT_PARAM_VALIDATE sp then (counter, tr) else
  final_rv_check
    (bst_stat_get_or_profile_set hw OPENNSL_E_NONE 0 (wrap_int (sp - 1)) statid type counter
      tr)

def egress_unicast_stats : Handler := fun hw statid type counter tr =>
  let queue := smap_get_int counter.counter_vendor_specific_info "queue" INVALID
  if INPUT_PARAM_VALIDATE queue then (counter, tr) else
  let port := queue.tdiv 8 + 1
  let queue := queue.tmod 8
  let g := hw.port_gport_get tr counter.hw_unit_id port
  let tr1 := tr ++ [.opennsl_port_gport_get counter.hw_unit_id port]
  if g.1 ≠ OPENNSL_E_NONE then (counter, tr1) else
  final_rv_check (bst_stat_get_or_profile_set hw g.1 g.2 (queue - 1) statid type counter tr1)

def egress_multicast_stats : Handler := fun hw statid type counter tr =>
  let queue := smap_get_int counter.counter_vendor_specific_info "queue" INVALID
  if INPUT_PARAM_VALIDATE queue then (counter, tr) else
  let port := queue.tdiv 8 + 1
  let queue := queue.tmod 8
  let g := hw.port_gport_get tr counter.hw_unit_id port
  let tr1 := tr ++ [.opennsl_port_gport_get counter.hw_unit_id port]
  if g.1 ≠ OPENNSL_E_NONE then (counter, tr1) else
  final_rv_check (bst_stat_get_or_profile_set hw g.1 g.2 (queue - 1) statid type counter tr1)

def egress_port_service_pool_stats : Handler := fun hw statid type counter tr =>
  let port := smap_get_int counter.counter_vendor_specific_info "port" INVALID
  if INPUT_PARAM_VALIDATE port then (counter, tr) else
  let sp := smap_get_int counter.counter_vendor_specific_info "service-pool" INVALID
  if INPUT_PARAM_VALIDATE sp then (counter, tr) else
  let g := hw.port_gport_get tr counter.hw_unit_id port
  let tr1 := tr ++ [.opennsl_port_gport_get counter.hw_unit_id port]
  if OPENNSL_RV_ERROR_CHECK g.1 then (counter, tr1) else
  final_rv_check
    (bst_stat_get_or_profile_set hw g.1 g.2 (wrap_int (sp - 1)) statid type counter tr1)

/-- In `egress_cpu_stats` the return code of `opennsl_port_gport_get` is not
checked: the get-or-set block follows unconditionally. -/
def egress_cpu_stats : Handler := fun hw statid type counter tr =>
  let queue := smap_get_int counter.counter_vendor_specific_info "queue" INVALID
  if INPUT_PARAM_VALIDATE queue then (counter, tr) else
  let g := hw.port_gport_get tr counter.hw_unit_id 0
  let tr1 := tr ++ [.opennsl_port_gport_get counter.hw_unit_id 0]
  final_rv_check
    (bst_stat_get_or_profile_set hw g.1 g.2 (wrap_int (queue - 1)) statid type counter tr1)

def egress_rqe_queue_stats : Handler := fun hw statid type counter tr =>
  let queue := smap_get_int counter.counter_vendor_specific_info "queue" INVALID
  if INPUT_PARAM_VALIDATE queue then (counter, tr) else
  final_rv_check
    (bst_stat_get_or_profile_set hw OPENNSL_E_NONE 0 (wrap_int (queue - 1)) statid type counter
      tr)

def egress_unicast_queue_group_stats : Handler := fun hw statid type counter tr =>
  let queue := smap_get_int counter.counter_vendor_specific_info "queue" INVALID
  if INPUT_PARAM_VALIDATE queue then (counter, tr) else
  final_rv_check
    (bst_stat_get_or_profile_set hw OPENNSL_E_NONE 0 (wrap_int (queue - 1)) statid type counter
      tr)

/-! ## Realm table and dispatcher -/

/-- The structure `realm_helper_t`: realm string, statid, handler. -/
structure realm_helper_t where
  realm : String
  statid : opennsl_bst_stat_id_t
  bufmon_counter_handler : Handler

/-- The table `realm_list[]`, in source order. -/
def realm_list : List realm_helper_t :=
  [ ⟨"device/data", .opennslBstStatIdDevice, device_data_stats⟩,
    ⟨"egress-service-pool/um-share-buffer-count", .opennslBstStatIdEgrPool,
      egress_service_pool_stats⟩,
    ⟨"egress-service-pool/mc-share-buffer-count", .opennslBstStatIdEgrMCastPool,
      egress_service_pool_stats⟩,
    ⟨"ingress-service-pool/um-share-buffer-count", .opennslBstStatIdIngPool,
      ingress_service_pool_stats⟩,
    ⟨"ingress-port-service-pool/um-share-buffer-count", .opennslBstStatIdPortPool,
      ingress_port_service_pool_stats⟩,
    ⟨"ingress-port-priority-group/um-share-buffer-count", .opennslBstStatIdPriGroupShared,
      ingress_port_priority_group_stats⟩,
    ⟨"ingress-port-priority-group/um-headroom-buffer-count",
      .opennslBstStatIdPriGroupHeadroom, ingress_port_priority_group_stats⟩,
    ⟨"egress-uc-queue/uc-buffer-count", .opennslBstStatIdUcast, egress_unicast_stats⟩,
    ⟨"egress-mc-queue/mc-buffer-count", .opennslBstStatIdMcast, egress_multicast_stats⟩,
    ⟨"egress-port-service-pool/uc-share-buffer-count",
      .opennslBstStatIdEgrUCastPortShared, egress_port_service_pool_stats⟩,
    ⟨"egress-port-service-pool/um-share-buffer-count", .opennslBstStatIdEgrPortShared,
      egress_port_service_pool_stats⟩,
    ⟨"egress-cpu-queue/cpu-buffer-count", .opennslBstStatIdMcast, egress_cpu_stats⟩,
    ⟨"egress-rqe-queue/rqe-buffer-count", .opennslBstStatIdRQEQueue,
      egress_rqe_queue_stats⟩,
    ⟨"egress-uc-queue-group/uc-buffer-count", .opennslBstStatIdUcastGroup,
      egress_unicast_queue_group_stats⟩ ]

/-- The function `get_max_stats()`: `sizeof(realm_list) / sizeof(realm_helper_t)`. -/
def get_max_stats : Nat := realm_list.length

/-- The count `#define MAX_STATS get_max_stats()`. -/
def MAX_STATS : Nat := get_max_stats

/-- The loop of `get_realm_stat_id` over the entries not yet visited. -/
def get_realm_stat_id_loop (P : Platform) (str : String) : List realm_helper_t → Int
  | [] => INVALID
  | e :: es =>
    if (strstr str.data e.realm.data).isSome then P.bst_stat_id e.statid
    else get_realm_stat_id_loop P str es

def get_realm_stat_id (P : Platform) (str : String) : Int :=
  get_realm_stat_id_loop P str realm_list

/-- The loop of `get_realm_index` over the entries not yet visited; `i` is the
index of the first of them. -/
def get_realm_index_loop (P : Platform) (statid : Int) (str : String) :
    List realm_helper_t → Nat → Int
  | [], _ => INVALID
  | e :: es, i =>
    if (strstr str.data e.realm.data).isSome ∧ statid = P.bst_stat_id e.statid then (i : Int)
    else get_realm_index_loop P statid str es (i + 1)

def get_realm_index (P : Platform) (statid : Int) (str : String) : Int :=
  get_realm_index_loop P statid str realm_list 0

/-- The dispatcher `handle_bufmon_counter_mgmt(counter, type)`.  The test
`(index) < MAX_STATS` compares an `int` with an `unsigned int`, so `index` is
converted to `unsigned` first. -/
def handle_bufmon_counter_mgmt (P : Platform) (hw : Hw) (counter : bufmon_counter_info_t)
    (type : counter_operations_t) (tr : Trace) : bufmon_counter_info_t × Trace :=
  match counter.name with
  | none => (counter, tr)
  | some name =>
    let statid := get_realm_stat_id P name
    if INPUT_PARAM_VALIDATE statid then (counter, tr) else
    let index := get_realm_index P statid name
    if INPUT_PARAM_VALIDATE index then (counter, tr) else
    if index % 2 ^ 32 < (MAX_STATS : Int) then
      match realm_list.get? index.toNat with
      | some e => e.bufmon_counter_handler hw statid type counter tr
      | none => (counter, tr)
    else (counter, tr)

/-- The sweep `realm_sync_all()`: the calls it adds to the trace.  `sync_rv`
is what `opennsl_cosq_bst_stat_sync` returns, given the history and its
arguments; the source calls the function as a statement, so the value is
computed and dropped. -/
def realm_sync_all (P : Platform) (sync_rv : Trace → Int → Int → Int) (tr : Trace) : Trace :=
  (List.range (P.MAX_SWITCH_UNIT_ID + 1)).foldl
    (fun t (hw_unit : Nat) =>
      realm_list.foldl
        (fun t2 e =>
          let _rv := sync_rv t2 (hw_unit : Int) (P.bst_stat_id e.statid)
          t2 ++ [.opennsl_cosq_bst_stat_sync (hw_unit : Int) (P.bst_stat_id e.statid)])
        t)
    tr

/-! ## Hardware-control helpers and trigger manager -/

set_option linter.unusedVariables false in
/-- The helper `bst_switch_control_get(unit, type, value)`: `value` is what `*value`
holds on entry; the result is what it holds on return. -/
def bst_switch_control_get (hw : Hw) (unit type value : Int) (tr : Trace) : Int × Trace :=
  let value := (0 : Int)
  let r := hw.switch_control_get tr unit type
  let value := r.2.getD value
  let tr1 := tr ++ [.opennsl_switch_control_get unit type]
  if OPENNSL_RV_ERROR_CHECK r.1 then (value, tr1) else (value, tr1)

/-- The loop of `bst_switch_control_set` over the units not yet visited;
`old_value` is the local variable carried from one iteration to the next.
`OPENNSL_RV_ERROR_CHECK` inside the loop body returns from the function. -/
def bst_switch_control_set_loop (hw : Hw) (type arg : Int) :
    List Nat → Int → Trace → Trace
  | [], _, tr => tr
  | hw_unit :: rest, old_value, tr =>
    let g := bst_switch_control_get hw hw_unit type old_value tr
    let old_value := g.1
    if old_value ≠ arg then
      let rv := hw.switch_control_set g.2 hw_unit type arg
      let tr2 := g.2 ++ [.opennsl_switch_control_set hw_unit type arg]
      if OPENNSL_RV_ERROR_CHECK rv then tr2
      else bst_switch_control_set_loop hw type arg rest old_value tr2
    else bst_switch_control_set_loop hw type arg rest old_value g.2

/-- The helper `bst_switch_control_set(type, arg)`: units `0 .. MAX_SWITCH_UNIT_ID`. -/
def bst_switch_control_set (P : Platform) (hw : Hw) (type arg : Int) (tr : Trace) : Trace :=
  bst_switch_control_set_loop hw type arg (List.range (P.MAX_SWITCH_UNIT_ID + 1)) 0 tr

/-- State of the trigger manager: the function-local
`static bool event_registered` and the call trace. -/
structure TriggerState where
  event_registered : Bool
  trace : Trace
  deriving DecidableEq, Repr

/-- State at process start: `event_registered = false`, nothing called. -/
def TriggerState.init : TriggerState := ⟨false, []⟩

/-- One iteration of the loop of `bst_switch_event_register`. -/
def bst_switch_event_register_body (enable : Bool) (s : TriggerState) (hw_unit : Nat) :
    TriggerState :=
  if enable then
    { event_registered := true,
      trace := s.trace ++ [.opennsl_switch_event_register hw_unit] }
  else if !enable && s.event_registered then
    { event_registered := false,
      trace := s.trace ++ [.opennsl_switch_event_unregister hw_unit] }
  else s

/-- The function `bst_switch_event_register(enable)`: units `0 .. MAX_SWITCH_UNIT_ID`. -/
def bst_switch_event_register (P : Platform) (enable : Bool) (s : TriggerState) :
    TriggerState :=
  (List.range (P.MAX_SWITCH_UNIT_ID + 1)).foldl (bst_switch_event_register_body enable) s

/-- The `Validate BID` loop of `bst_switch_event_callback`: the value of
`valid_trigger` after the entries not yet visited. -/
def validate_bid_loop (P : Platform) (bid : Int) : List realm_helper_t → Bool → Bool
  | [], valid_trigger => valid_trigger
  | e :: es, valid_trigger =>
    validate_bid_loop P bid es
      (if P.bst_stat_id e.statid = bid then true else valid_trigger)

/-- The callback `bst_switch_event_callback(asic, event, bid, port, cosq, cookie)`; the
cookie is the address `&trigger_user_data[unit]` and is passed as its unit. -/
def bst_switch_event_callback (P : Platform) (hw : Hw)
    (asic event bid port cosq : Int) (cookie : Nat) (tr : Trace) : Trace :=
  let _unused := (asic, port, cosq, cookie)
  let tr1 := bst_switch_control_set P hw P.opennslSwitchBstEnable 0 tr
  if event = P.OPENNSL_SWITCH_EVENT_MMU_BST_TRIGGER then
    let valid_trigger := validate_bid_loop P bid realm_list false
    if valid_trigger then tr1 ++ [.bufmon_trigger_callback] else tr1
  else tr1


/-! ## Vocabulary of the statements -/

/-- The eleven addressing handlers of the file, in source order. -/
def addressing_handlers : List Handler :=
  [ device_data_stats, ingress_port_priority_group_stats, ingress_port_service_pool_stats,
    ingress_service_pool_stats, egress_service_pool_stats, egress_unicast_stats,
    egress_multicast_stats, egress_port_service_pool_stats, egress_cpu_stats,
    egress_rqe_queue_stats, egress_unicast_queue_group_stats ]

/-- The call is an `opennsl_cosq_bst_profile_set`, the only hardware write a
handler can issue. -/
def HwCall.is_profile_set : HwCall → Bool
  | .opennsl_cosq_bst_profile_set _ _ _ _ _ => true
  | _ => false

/-- The call is an `opennsl_switch_control_get` or an
`opennsl_switch_control_set` of control `type`, a set writing `arg`. -/
def HwCall.is_control (type arg : Int) : HwCall → Bool
  | .opennsl_switch_control_get _ t => t == type
  | .opennsl_switch_control_set _ t a => t == type && a == arg
  | _ => false

/-- What one visit of a unit looks like in the words of the specification:
read the current value, and write only if it differs from the requested
value.  `h` is the history before the visit. -/
def visit_unit (hw : Hw) (type arg : Int) (h : Trace) (u : Nat) : Trace :=
  if (bst_switch_control_get hw u type 0 h).1 ≠ arg then
    [.opennsl_switch_control_get u type, .opennsl_switch_control_set u type arg]
  else
    [.opennsl_switch_control_get u type]

/-- The calls of a sweep that visits the units `us` one after the other,
each as in `visit_unit`, starting from history `h`. -/
def sweep_units (hw : Hw) (type arg : Int) : List Nat → Trace → Trace
  | [], _ => []
  | u :: us, h =>
    visit_unit hw type arg h u ++ sweep_units hw type arg us (h ++ visit_unit hw type arg h u)

/-- The visit of unit `u` from history `h` attempts the write and the write
returns an error. -/
def write_fails (hw : Hw) (type arg : Int) (h : Trace) (u : Nat) : Bool :=
  decide ((bst_switch_control_get hw u type 0 h).1 ≠ arg) &&
    OPENNSL_RV_ERROR_CHECK
      (hw.switch_control_set (h ++ [.opennsl_switch_control_get u type]) u type arg)

/-- The required parameters of each realm family, as the addressing table of
the specification lists them. -/
def required_params : List (Handler × List String) :=
  [ (device_data_stats, []),
    (ingress_port_priority_group_stats, ["port", "priority-group"]),
    (ingress_port_service_pool_stats, ["port", "service-pool"]),
    (ingress_service_pool_stats, ["service-pool"]),
    (egress_service_pool_stats, ["service-pool"]),
    (egress_unicast_stats, ["queue"]),
    (egress_multicast_stats, ["queue"]),
    (egress_port_service_pool_stats, ["port", "service-pool"]),
    (egress_cpu_stats, ["queue"]),
    (egress_rqe_queue_stats, ["queue"]),
    (egress_unicast_queue_group_stats, ["queue"]) ]

/-- The handlers that resolve a port to a logical port handle. -/
def port_resolving_handlers : List Handler :=
  [ ingress_port_priority_group_stats, ingress_port_service_pool_stats, egress_unicast_stats,
    egress_multicast_stats, egress_port_service_pool_stats, egress_cpu_stats ]

/-- The call is a statistic get or a profile set. -/
def HwCall.is_stat_get_or_profile_set : HwCall → Bool
  | .opennsl_cosq_bst_stat_get _ _ _ _ _ => true
  | .opennsl_cosq_bst_profile_set _ _ _ _ _ => true
  | _ => false

/-- How a row of the addressing table obtains the logical port handle: no
resolution (handle 0), resolution of a fixed port, or resolution of the port
stored in the bag under a key. -/
inductive PortRule where
  | no_port
  | fixed_port (port : Int)
  | port_param (key : String)
  deriving DecidableEq, Repr

/-- A row of the addressing table: the port rule and the key of the parameter
whose value minus one is the sub-resource index (`none`: index 0). -/
structure AddressRule where
  handler : Handler
  port : PortRule
  cosq_key : Option String

/-- The keys a row reads from the bag. -/
def AddressRule.keys (r : AddressRule) : List String :=
  (match r.port with
    | .port_param key => [key]
    | _ => []) ++ r.cosq_key.toList

/-- The sub-resource index of a row: the value of its parameter minus one,
or 0 for a row without one. -/
def AddressRule.cosq (r : AddressRule) (counter : bufmon_counter_info_t) : Int :=
  match r.cosq_key with
  | none => 0
  | some key => smap_get_int counter.counter_vendor_specific_info key INVALID - 1

/-- The read of control `type` on unit `u` from history `h` fails and stores
nothing through the output pointer. -/
def read_fails (hw : Hw) (type : Int) (h : Trace) (u : Int) : Bool :=
  OPENNSL_RV_ERROR_CHECK (hw.switch_control_get h u type).1 &&
    (hw.switch_control_get h u type).2.isNone

/-! ## Concrete inputs used to exercise the theorems -/

/-- A platform with two hardware units; the enumerators are numbered in the
order of their declaration. -/
def P0 : Platform :=
  { MAX_SWITCH_UNIT_ID := 1
    bst_stat_id := fun s => (s.toCtorIdx : Int)
    opennslSwitchBstEnable := 100
    OPENNSL_SWITCH_EVENT_MMU_BST_TRIGGER := 200 }

/-- A library in which every call succeeds: port `p` resolves to handle
`1000 + p`, every statistic reads 7, every control reads 1. -/
def hw_ok : Hw :=
  { port_gport_get := fun _ _ port => (OPENNSL_E_NONE, 1000 + port)
    bst_stat_get := fun _ _ _ _ _ _ => (OPENNSL_E_NONE, some 7)
    bst_profile_set := fun _ _ _ _ _ _ => OPENNSL_E_NONE
    switch_control_get := fun _ _ _ => (OPENNSL_E_NONE, some 1)
    switch_control_set := fun _ _ _ _ => OPENNSL_E_NONE }

/-- A counter whose name belongs to no realm. -/
def counter_unknown : bufmon_counter_info_t :=
  { hw_unit_id := 0
    name := some "foo/bar"
    counter_vendor_specific_info := [("queue", 3)]
    counter_value := 42
    trigger_threshold := 5 }

/-- A counter of the egress queue families with `queue = 8`. -/
def counter_q8 : bufmon_counter_info_t :=
  { hw_unit_id := 0
    name := some "egress-uc-queue/uc-buffer-count"
    counter_vendor_specific_info := [("queue", 8)]
    counter_value := 0
    trigger_threshold := 0 }

/-- A library whose controls always read 1 and whose control writes always
fail with -1. -/
def hw_write_fails : Hw :=
  { hw_ok with switch_control_set := fun _ _ _ _ => -1 }

/-- A library whose port resolution always fails with -1 and leaves 555 in
the caller's `gport` variable; everything else succeeds. -/
def hw_gport_fails : Hw :=
  { hw_ok with port_gport_get := fun _ _ _ => (-1, 555) }

/-- A library whose control reads always fail with -1 and store nothing. -/
def hw_read_fails : Hw :=
  { hw_ok with switch_control_get := fun _ _ _ => (-1, none) }

/-- A counter of the CPU queue family with `queue = 3`. -/
def counter_cpu : bufmon_counter_info_t :=
  { hw_unit_id := 0
    name := some "egress-cpu-queue/cpu-buffer-count"
    counter_vendor_specific_info := [("queue", 3)]
    counter_value := 42
    trigger_threshold := 5 }

/-- A counter of the port and priority-group family without `priority-group`. -/
def counter_no_pg : bufmon_counter_info_t :=
  { hw_unit_id := 0
    name := some "ingress-port-priority-group/um-share-buffer-count"
    counter_vendor_specific_info := [("port", 4)]
    counter_value := 42
    trigger_threshold := 5 }

/-- A library whose control reads fail with -1 and nevertheless store 1
through the output pointer; everything else succeeds. -/
def hw_read_fails_stores : Hw :=
  { hw_ok with switch_control_get := fun _ _ _ => (-1, some 1) }

/-! ## Theorems -/

theorem MAX_STATS_eq : MAX_STATS = 14 := rfl

theorem strstr_isSome_iff (h n : List Char) : (strstr h n).isSome = true ↔ n <:+: h := by
  induction h with
  | nil =>
    cases n <;> simp [strstr]
  | cons c cs ih =>
    rw [List.infix_cons_iff, ← ih, strstr]
    by_cases hp : n.isPrefixOf (c :: cs) = true
    · simp [hp, List.isPrefixOf_iff_prefix.mp hp]
    · have : ¬ n <+: c :: cs := fun h' => hp (List.isPrefixOf_iff_prefix.mpr h')
      simp [hp, this]

theorem realm_not_infix : ∀ i j : Fin realm_list.length, j ≠ i →
    ¬ (realm_list.get j).realm.data <:+: (realm_list.get i).realm.data := by
  decide

theorem get_realm_stat_id_loop_none (P : Platform) (str : String) (l : List realm_helper_t)
    (h : ∀ e ∈ l, ¬ e.realm.data <:+: str.data) :
    get_realm_stat_id_loop P str l = INVALID := by
  induction l with
  | nil => rfl
  | cons e es ih =>
    have he : ¬ (strstr str.data e.realm.data).isSome = true := fun hs =>
      h e (List.mem_cons_self e es) ((strstr_isSome_iff _ _).mp hs)
    rw [get_realm_stat_id_loop, if_neg he]
    exact ih (fun f hf => h f (List.mem_cons_of_mem e hf))

theorem get_realm_index_loop_first (P : Platform) (statid : Int) (str : String)
    (l : List realm_helper_t) (k i : Nat) (e : realm_helper_t)
    (hi : l.get? i = some e)
    (hmatch : e.realm.data <:+: str.data ∧ statid = P.bst_stat_id e.statid)
    (hfirst : ∀ j f, j < i → l.get? j = some f →
      ¬ (f.realm.data <:+: str.data ∧ statid = P.bst_stat_id f.statid)) :
    get_realm_index_loop P statid str l k = ((k + i : Nat) : Int) := by
  induction l generalizing k i with
  | nil => simp at hi
  | cons a as ih =>
    cases i with
    | zero =>
      simp only [List.get?_cons_zero, Option.some.injEq] at hi
      subst hi
      have hs : (strstr str.data a.realm.data).isSome = true :=
        (strstr_isSome_iff _ _).mpr hmatch.1
      rw [get_realm_index_loop, if_pos ⟨hs, hmatch.2⟩]
      simp
    | succ i =>
      have ha : ¬ ((strstr str.data a.realm.data).isSome = true ∧
          statid = P.bst_stat_id a.statid) := fun hs =>
        hfirst 0 a (Nat.succ_pos i) rfl ⟨(strstr_isSome_iff _ _).mp hs.1, hs.2⟩
      rw [get_realm_index_loop, if_neg ha]
      rw [ih (k + 1) i hi (fun j f hj hf => hfirst (j + 1) f (Nat.succ_lt_succ hj) hf)]
      congr 1
      omega

/-- C1: a counter whose name is absent, or contains no realm string of
`realm_list` as a substring, is returned unchanged by
`handle_bufmon_counter_mgmt`, for either operation, and no call is added to
the trace. -/
theorem handle_bufmon_counter_mgmt_unknown_name (P : Platform) (hw : Hw)
    (counter : bufmon_counter_info_t) (type : counter_operations_t) (tr : Trace)
    (h : counter.name = none ∨
      ∃ name, counter.name = some name ∧ ∀ e ∈ realm_list, ¬ e.realm.data <:+: name.data) :
    handle_bufmon_counter_mgmt P hw counter type tr = (counter, tr) := by
  rcases h with h | ⟨name, hn, hno⟩
  · simp [handle_bufmon_counter_mgmt, h]
  · have hs : get_realm_stat_id P name = INVALID :=
      get_realm_stat_id_loop_none P name realm_list hno
    simp [handle_bufmon_counter_mgmt, hn, hs, INPUT_PARAM_VALIDATE]

/-- C2: for the entry at any index `i` of `realm_list`,
`get_realm_index` applied to that entry's statid and realm string returns
`i`, and no entry at another index has both its realm string a substring of
this one and the same statid. -/
theorem get_realm_index_of_entry (P : Platform) (i : Nat) (e : realm_helper_t)
    (hi : realm_list.get? i = some e) :
    get_realm_index P (P.bst_stat_id e.statid) e.realm = (i : Int) ∧
    ∀ j f, realm_list.get? j = some f → j ≠ i →
      ¬ (f.realm.data <:+: e.realm.data ∧ P.bst_stat_id f.statid = P.bst_stat_id e.statid) := by
  obtain ⟨hlt, hget⟩ := List.get?_eq_some.mp hi
  have key : ∀ j f, realm_list.get? j = some f → j ≠ i → ¬ f.realm.data <:+: e.realm.data := by
    intro j f hj hne
    obtain ⟨hjlt, hjget⟩ := List.get?_eq_some.mp hj
    have := realm_not_infix ⟨i, hlt⟩ ⟨j, hjlt⟩ (fun h => hne (Fin.mk.inj_iff.mp h))
    rw [hget, hjget] at this
    exact this
  refine ⟨?_, fun j f hj hne hboth => key j f hj hne hboth.1⟩
  have := get_realm_index_loop_first P (P.bst_stat_id e.statid) e.realm realm_list 0 i e hi
    ⟨List.infix_refl _, rfl⟩ (fun j f hj hf hboth => key j f hf (Nat.ne_of_lt hj) hboth.1)
  simpa [get_realm_index] using this


/-- The statement of C1 on a counter named `foo/bar`. -/
theorem handle_bufmon_counter_mgmt_unknown_name_witness :
    handle_bufmon_counter_mgmt P0 hw_ok counter_unknown .GET_COUNTER_VALUE [] =
      (counter_unknown, []) :=
  handle_bufmon_counter_mgmt_unknown_name P0 hw_ok counter_unknown .GET_COUNTER_VALUE []
    (Or.inr ⟨"foo/bar", rfl, by decide⟩)

/-- The statement of C2 on entry 11, the second entry with
`opennslBstStatIdMcast`. -/
theorem get_realm_index_of_entry_witness :
    get_realm_index P0 (P0.bst_stat_id .opennslBstStatIdMcast)
      "egress-cpu-queue/cpu-buffer-count" = 11 :=
  (get_realm_index_of_entry P0 11
    ⟨"egress-cpu-queue/cpu-buffer-count", .opennslBstStatIdMcast, egress_cpu_stats⟩ rfl).1

theorem final_rv_check_eq (r : Int × bufmon_counter_info_t × Trace) :
    final_rv_check r = r.2 := by
  simp [final_rv_check]

theorem get_or_set_zero_threshold (hw : Hw) (rv gport cosq statid : Int)
    (counter : bufmon_counter_info_t) (tr : Trace) (h0 : counter.trigger_threshold = 0) :
    bst_stat_get_or_profile_set hw rv gport cosq statid .SET_COUNTER_THRESHOLD counter tr =
      (rv, counter, tr) := by
  simp [bst_stat_get_or_profile_set, h0]

/-- C3: in `egress_unicast_stats` and `egress_multicast_stats`, for a present
queue value `q` (other than the sentinel -1), port resolution is called with
port `q / 8 + 1`; when it fails nothing else is called, and when it succeeds
the statistic get (the profile set, for a non-zero threshold) is called with
sub-resource index `q % 8 - 1`, C division and remainder.  For `q = 13` these
are port 2 and index 4, for `q = 8` port 2 and index -1. -/
theorem egress_queue_stats_address (hw : Hw) (statid : Int) (type : counter_operations_t)
    (counter : bufmon_counter_info_t) (tr : Trace) (q : Int) (h : Handler)
    (hh : h = egress_unicast_stats ∨ h = egress_multicast_stats)
    (hq : counter.counter_vendor_specific_info.lookup "queue" = some q) (hne : q ≠ -1) :
    ((hw.port_gport_get tr counter.hw_unit_id (q.tdiv 8 + 1)).1 ≠ OPENNSL_E_NONE →
        (h hw statid type counter tr).2 =
          tr ++ [.opennsl_port_gport_get counter.hw_unit_id (q.tdiv 8 + 1)]) ∧
    ((hw.port_gport_get tr counter.hw_unit_id (q.tdiv 8 + 1)).1 = OPENNSL_E_NONE →
        (h hw statid type counter tr).2 =
          tr ++ .opennsl_port_gport_get counter.hw_unit_id (q.tdiv 8 + 1) ::
            (match type with
              | .GET_COUNTER_VALUE =>
                [.opennsl_cosq_bst_stat_get counter.hw_unit_id
                  (hw.port_gport_get tr counter.hw_unit_id (q.tdiv 8 + 1)).2
                  (q.tmod 8 - 1) statid 0]
              | .SET_COUNTER_THRESHOLD =>
                if counter.trigger_threshold ≠ 0 then
                  [.opennsl_cosq_bst_profile_set counter.hw_unit_id
                    (hw.port_gport_get tr counter.hw_unit_id (q.tdiv 8 + 1)).2
                    (q.tmod 8 - 1) statid counter.trigger_threshold]
                else [])) ∧
    (q = 13 → q.tdiv 8 + 1 = 2 ∧ q.tmod 8 - 1 = 4) ∧
    (q = 8 → q.tdiv 8 + 1 = 2 ∧ q.tmod 8 - 1 = -1) := by
  have hv : smap_get_int counter.counter_vendor_specific_info "queue" INVALID = q := by
    simp [smap_get_int, hq]
  have hval : INPUT_PARAM_VALIDATE q = false := by
    simp [INPUT_PARAM_VALIDATE, INVALID, hne]
  refine ⟨?_, ?_, ?_, ?_⟩
  · intro hrv
    rcases hh with rfl | rfl <;>
      simp [egress_unicast_stats, egress_multicast_stats, hv, hval, hrv]
  · intro hrv
    rcases hh with rfl | rfl <;> cases type <;>
      simp [egress_unicast_stats, egress_multicast_stats, hv, hval, hrv, final_rv_check_eq,
        bst_stat_get_or_profile_set] <;>
      split_ifs <;> simp
  · rintro rfl; decide
  · rintro rfl; decide

/-- The statement of C3 on `queue = 8`: port 2, and index -1 reaches the
statistic get. -/
theorem egress_queue_stats_address_witness :
    (egress_unicast_stats hw_ok 7 .GET_COUNTER_VALUE counter_q8 []).2 =
      [.opennsl_port_gport_get 0 2, .opennsl_cosq_bst_stat_get 0 1002 (-1) 7 0] :=
  (egress_queue_stats_address hw_ok 7 .GET_COUNTER_VALUE counter_q8 [] 8 egress_unicast_stats
    (Or.inl rfl) rfl (by decide)).2.1 rfl

theorem handler_mem_addressing_handlers :
    ∀ e ∈ realm_list, e.bufmon_counter_handler ∈ addressing_handlers := by
  simp [realm_list, addressing_handlers]

theorem no_profile_set_nil (tr : Trace) :
    ∃ new, tr = tr ++ new ∧ ∀ c ∈ new, HwCall.is_profile_set c = false :=
  ⟨[], by simp, by simp⟩

theorem no_profile_set_gport (tr : Trace) (u p : Int) :
    ∃ new, tr ++ [HwCall.opennsl_port_gport_get u p] = tr ++ new ∧
      ∀ c ∈ new, HwCall.is_profile_set c = false :=
  ⟨[.opennsl_port_gport_get u p], rfl, by simp [HwCall.is_profile_set]⟩

theorem handler_set_zero_threshold (hw : Hw) (counter : bufmon_counter_info_t) (tr : Trace)
    (h0 : counter.trigger_threshold = 0) (h : Handler) (hh : h ∈ addressing_handlers)
    (statid : Int) :
    ∃ new, (h hw statid .SET_COUNTER_THRESHOLD counter tr).2 = tr ++ new ∧
      ∀ c ∈ new, c.is_profile_set = false := by
  simp only [addressing_handlers, List.mem_cons, List.mem_singleton, List.not_mem_nil,
    or_false] at hh
  rcases hh with rfl | rfl | rfl | rfl | rfl | rfl | rfl | rfl | rfl | rfl | rfl
  all_goals
    simp only [device_data_stats, ingress_port_priority_group_stats,
      ingress_port_service_pool_stats, ingress_service_pool_stats, egress_service_pool_stats,
      egress_unicast_stats, egress_multicast_stats, egress_port_service_pool_stats,
      egress_cpu_stats, egress_rqe_queue_stats, egress_unicast_queue_group_stats,
      final_rv_check_eq, get_or_set_zero_threshold _ _ _ _ _ _ _ h0]
    repeat' split
    all_goals
      first
        | exact no_profile_set_nil _
        | exact no_profile_set_gport _ _ _

/-- C4: with `trigger_threshold == 0`, a `SET_COUNTER_THRESHOLD` call of any of
the eleven addressing handlers, for any statid, parameter bag, prior history
and hardware responder, adds no `opennsl_cosq_bst_profile_set` call to the
trace, and neither does `handle_bufmon_counter_mgmt`, whatever the counter
name is. -/
theorem set_zero_threshold_no_profile_set (P : Platform) (hw : Hw)
    (counter : bufmon_counter_info_t) (tr : Trace) (h0 : counter.trigger_threshold = 0) :
    (∀ h ∈ addressing_handlers, ∀ statid : Int,
      ∃ new, (h hw statid .SET_COUNTER_THRESHOLD counter tr).2 = tr ++ new ∧
        ∀ c ∈ new, c.is_profile_set = false) ∧
    (∃ new, (handle_bufmon_counter_mgmt P hw counter .SET_COUNTER_THRESHOLD tr).2 = tr ++ new ∧
        ∀ c ∈ new, c.is_profile_set = false) := by
  refine ⟨fun h hh statid => handler_set_zero_threshold hw counter tr h0 h hh statid, ?_⟩
  unfold handle_bufmon_counter_mgmt
  split
  · exact no_profile_set_nil tr
  · dsimp only
    split_ifs
    · exact no_profile_set_nil tr
    · exact no_profile_set_nil tr
    · split
      · next e he =>
        exact handler_set_zero_threshold hw counter tr h0 _
          (handler_mem_addressing_handlers e (List.get?_mem he)) _
      · exact no_profile_set_nil tr
    · exact no_profile_set_nil tr

/-- The statement of C4 on a unicast-queue counter with threshold 0. -/
theorem set_zero_threshold_no_profile_set_witness :
    ∃ new, (handle_bufmon_counter_mgmt P0 hw_ok counter_q8 .SET_COUNTER_THRESHOLD []).2 =
        [] ++ new ∧ ∀ c ∈ new, c.is_profile_set = false :=
  (set_zero_threshold_no_profile_set P0 hw_ok counter_q8 [] rfl).2

theorem bst_switch_control_get_eq (hw : Hw) (unit type value : Int) (tr : Trace) :
    bst_switch_control_get hw unit type value tr =
      ((hw.switch_control_get tr unit type).2.getD 0,
        tr ++ [.opennsl_switch_control_get unit type]) := by
  simp [bst_switch_control_get]

theorem control_set_loop_cons (hw : Hw) (type arg : Int) (u : Nat) (us : List Nat)
    (old : Int) (tr : Trace) :
    bst_switch_control_set_loop hw type arg (u :: us) old tr =
      if write_fails hw type arg tr u = true then tr ++ visit_unit hw type arg tr u
      else bst_switch_control_set_loop hw type arg us
        ((hw.switch_control_get tr u type).2.getD 0) (tr ++ visit_unit hw type arg tr u) := by
  rw [bst_switch_control_set_loop]
  simp only [bst_switch_control_get_eq, write_fails, visit_unit]
  by_cases hv : (hw.switch_control_get tr (u : Int) type).2.getD 0 = arg
  · simp [hv]
  · by_cases hf : OPENNSL_RV_ERROR_CHECK
        (hw.switch_control_set (tr ++ [.opennsl_switch_control_get u type]) u type arg) = true
    · simp [hv, hf]
    · simp [hv, hf]

theorem sweep_units_is_control (hw : Hw) (type arg : Int) (us : List Nat) (h : Trace) :
    ∀ c ∈ sweep_units hw type arg us h, HwCall.is_control type arg c = true := by
  induction us generalizing h with
  | nil => simp [sweep_units]
  | cons u us ih =>
    intro c hc
    rw [sweep_units, List.mem_append] at hc
    rcases hc with hc | hc
    · unfold visit_unit at hc
      split_ifs at hc <;> simp at hc <;> rcases hc with rfl | rfl <;>
        simp [HwCall.is_control]
    · exact ih _ c hc

/-- The loop of `bst_switch_control_set` over any list of units: it performs
the sweep over the first `k` of them, where either `k` is the whole list or
the `k`-th visit is the first one whose write fails. -/
theorem control_set_loop_sweep (hw : Hw) (type arg : Int) (us : List Nat) (old : Int)
    (tr : Trace) :
    ∃ k, k ≤ us.length ∧
      bst_switch_control_set_loop hw type arg us old tr =
        tr ++ sweep_units hw type arg (us.take k) tr ∧
      (∀ j u, j + 1 < k → us.get? j = some u →
        write_fails hw type arg (tr ++ sweep_units hw type arg (us.take j) tr) u = false) ∧
      (k < us.length → ∃ j u, k = j + 1 ∧ us.get? j = some u ∧
        write_fails hw type arg (tr ++ sweep_units hw type arg (us.take j) tr) u = true) := by
  induction us generalizing old tr with
  | nil =>
    exact ⟨0, Nat.le_refl _, by simp [bst_switch_control_set_loop, sweep_units],
      fun j u hj => absurd hj (Nat.not_lt_zero _), fun hk => absurd hk (Nat.lt_irrefl _)⟩
  | cons u us ih =>
    rw [control_set_loop_cons]
    by_cases hf : write_fails hw type arg tr u = true
    · refine ⟨1, by simp, by simp [hf, sweep_units], fun j v hj => by omega, fun _ => ?_⟩
      exact ⟨0, u, rfl, rfl, by simpa [sweep_units] using hf⟩
    · obtain ⟨k, hk, hrun, hbefore, hstop⟩ :=
        ih ((hw.switch_control_get tr u type).2.getD 0) (tr ++ visit_unit hw type arg tr u)
      refine ⟨k + 1, by simpa using hk, ?_, ?_, ?_⟩
      · rw [if_neg hf, hrun]
        simp [sweep_units, List.append_assoc]
      · intro j v hj hv
        cases j with
        | zero =>
          simp only [List.get?_cons_zero, Option.some.injEq] at hv
          subst hv
          simpa [sweep_units] using hf
        | succ j =>
          have := hbefore j v (by omega) (by simpa using hv)
          simpa [sweep_units, List.append_assoc] using this
      · intro hlt
        obtain ⟨j, v, hkj, hv, hfail⟩ := hstop (by simpa using hlt)
        refine ⟨j + 1, v, by omega, by simpa using hv, ?_⟩
        simpa [sweep_units, List.append_assoc] using hfail

/-- The function `bst_switch_control_set` performs the sweep over the units `0 .. k-1`
for some `k ≤ MAX_SWITCH_UNIT_ID + 1`; no write fails before unit `k-1`, and
when `k` is not the number of units, the write to unit `k-1` fails. -/
theorem bst_switch_control_set_sweep (P : Platform) (hw : Hw) (type arg : Int) (tr : Trace) :
    ∃ k, k ≤ P.MAX_SWITCH_UNIT_ID + 1 ∧
      bst_switch_control_set P hw type arg tr =
        tr ++ sweep_units hw type arg (List.range k) tr ∧
      (∀ j, j + 1 < k →
        write_fails hw type arg (tr ++ sweep_units hw type arg (List.range j) tr) j = false) ∧
      (k ≤ P.MAX_SWITCH_UNIT_ID → ∃ j, k = j + 1 ∧
        write_fails hw type arg (tr ++ sweep_units hw type arg (List.range j) tr) j = true) := by
  obtain ⟨k, hk, hrun, hbefore, hstop⟩ :=
    control_set_loop_sweep hw type arg (List.range (P.MAX_SWITCH_UNIT_ID + 1)) 0 tr
  rw [List.length_range] at hk hstop
  have htake : ∀ j, j ≤ k → (List.range (P.MAX_SWITCH_UNIT_ID + 1)).take j = List.range j := by
    intro j hj
    rw [List.take_range, Nat.min_eq_left (Nat.le_trans hj hk)]
  have hget : ∀ j, j < P.MAX_SWITCH_UNIT_ID + 1 →
      (List.range (P.MAX_SWITCH_UNIT_ID + 1)).get? j = some j := by
    intro j hj
    rw [List.get?_eq_getElem?, List.getElem?_range hj]
  refine ⟨k, hk, ?_, ?_, ?_⟩
  · rw [← htake k (Nat.le_refl k)]
    exact hrun
  · intro j hj
    have := hbefore j j hj (hget j (by omega))
    rwa [htake j (by omega)] at this
  · intro hle
    obtain ⟨j, u, hkj, hu, hfail⟩ := hstop (by omega)
    rw [hget j (by omega)] at hu
    cases hu
    rw [htake j (by omega)] at hfail
    exact ⟨j, hkj, hfail⟩

/-- Counterexample to C9 as stated: on two units whose controls read 1, with
failing writes, the request `(100, 0)` ends after the write to unit 0,
although unit 1 would read a value different from 0. -/
theorem bst_switch_control_set_counterexample :
    bst_switch_control_set P0 hw_write_fails 100 0 [] =
        [.opennsl_switch_control_get 0 100, .opennsl_switch_control_set 0 100 0] ∧
      (bst_switch_control_get hw_write_fails 1 100 0
        [.opennsl_switch_control_get 0 100, .opennsl_switch_control_set 0 100 0]).1 ≠ 0 := by
  decide

/-- C9, as amended: `bst_switch_control_set` visits the units
`0, 1, ..` in order, each by a read followed by a write when the value read
differs, and goes on to the next unit after a failed read, a skipped write or
a successful write; the first write that returns an error ends the loop, so
the units after it are neither read nor written.  `k` is the number of units
visited. -/
theorem bst_switch_control_set_stops_at_failed_write (P : Platform) (hw : Hw)
    (type arg : Int) (tr : Trace) :
    ∃ k, k ≤ P.MAX_SWITCH_UNIT_ID + 1 ∧
      bst_switch_control_set P hw type arg tr =
        tr ++ sweep_units hw type arg (List.range k) tr ∧
      (∀ j, j + 1 < k →
        write_fails hw type arg (tr ++ sweep_units hw type arg (List.range j) tr) j = false) ∧
      (k ≤ P.MAX_SWITCH_UNIT_ID → ∃ j, k = j + 1 ∧
        write_fails hw type arg (tr ++ sweep_units hw type arg (List.range j) tr) j = true) :=
  bst_switch_control_set_sweep P hw type arg tr

/-- The sweep of `bst_switch_control_set` always visits unit 0: in
`bst_switch_control_set_sweep` the number `k` of visited units is at least
one. -/
theorem bst_switch_control_set_sweep_pos (P : Platform) (hw : Hw) (type arg : Int)
    (tr : Trace) :
    ∃ k, 1 ≤ k ∧ k ≤ P.MAX_SWITCH_UNIT_ID + 1 ∧
      bst_switch_control_set P hw type arg tr =
        tr ++ sweep_units hw type arg (List.range k) tr ∧
      (k ≤ P.MAX_SWITCH_UNIT_ID → ∃ j, k = j + 1 ∧
        write_fails hw type arg (tr ++ sweep_units hw type arg (List.range j) tr) j = true) := by
  obtain ⟨k, hk, hrun, _, hstop⟩ := bst_switch_control_set_sweep P hw type arg tr
  refine ⟨k, ?_, hk, hrun, hstop⟩
  by_contra h0
  obtain ⟨j, hj, _⟩ := hstop (by omega)
  omega

theorem validate_bid_loop_eq (P : Platform) (bid : Int) (l : List realm_helper_t) (v : Bool) :
    validate_bid_loop P bid l v = true ↔ v = true ∨ ∃ e ∈ l, P.bst_stat_id e.statid = bid := by
  induction l generalizing v with
  | nil => simp [validate_bid_loop]
  | cons e es ih =>
    rw [validate_bid_loop, ih]
    by_cases he : P.bst_stat_id e.statid = bid
    · simp [he]
    · simp [he]

theorem bst_switch_control_set_calls (P : Platform) (hw : Hw) (type arg : Int) (tr : Trace) :
    ∃ ctl, bst_switch_control_set P hw type arg tr = tr ++ ctl ∧
      ctl.head? = some (.opennsl_switch_control_get 0 type) ∧
      ∀ c ∈ ctl, HwCall.is_control type arg c = true := by
  obtain ⟨k, hk, hrun, _, hstop⟩ := bst_switch_control_set_sweep P hw type arg tr
  refine ⟨_, hrun, ?_, sweep_units_is_control hw type arg _ tr⟩
  have hpos : 0 < k := by
    by_contra h0
    obtain ⟨j, hj, _⟩ := hstop (by omega)
    omega
  obtain ⟨n, rfl⟩ := Nat.exists_eq_succ_of_ne_zero (Nat.pos_iff_ne_zero.mp hpos)
  rw [List.range_succ_eq_map, sweep_units]
  unfold visit_unit
  split_ifs <;> simp

/-- C5: `bst_switch_event_callback` calls `bufmon_trigger_callback` exactly
once when the event is `OPENNSL_SWITCH_EVENT_MMU_BST_TRIGGER` and `bid` is
the statid of at least one entry of `realm_list`, and not at all
otherwise. -/
theorem bst_switch_event_callback_notifies (P : Platform) (hw : Hw)
    (asic event bid port cosq : Int) (cookie : Nat) (tr : Trace) :
    ∃ new, bst_switch_event_callback P hw asic event bid port cosq cookie tr = tr ++ new ∧
      new.count .bufmon_trigger_callback =
        if event = P.OPENNSL_SWITCH_EVENT_MMU_BST_TRIGGER ∧
            ∃ e ∈ realm_list, P.bst_stat_id e.statid = bid then 1 else 0 := by
  obtain ⟨ctl, hctl, _, hall⟩ := bst_switch_control_set_calls P hw P.opennslSwitchBstEnable 0 tr
  have hnone : ctl.count .bufmon_trigger_callback = 0 := by
    rw [List.count_eq_zero]
    intro hmem
    have := hall _ hmem
    simp [HwCall.is_control] at this
  have hvalid := validate_bid_loop_eq P bid realm_list false
  simp only [Bool.false_eq_true, false_or] at hvalid
  unfold bst_switch_event_callback
  simp only [hctl]
  by_cases hev : event = P.OPENNSL_SWITCH_EVENT_MMU_BST_TRIGGER
  · by_cases hb : ∃ e ∈ realm_list, P.bst_stat_id e.statid = bid
    · refine ⟨ctl ++ [.bufmon_trigger_callback], ?_, ?_⟩
      · simp [hev, hvalid.mpr hb]
      · rw [if_pos ⟨hev, hb⟩, List.count_append, hnone]
        simp
    · have hv : ¬ validate_bid_loop P bid realm_list false = true := fun h => hb (hvalid.mp h)
      refine ⟨ctl, ?_, ?_⟩
      · simp [hev, hv]
      · rw [if_neg (fun h => hb h.2), hnone]
  · refine ⟨ctl, ?_, ?_⟩
    · simp [hev]
    · rw [if_neg (fun h => hev h.1), hnone]

/-- C6: every invocation of `bst_switch_event_callback` runs
`bst_switch_control_set(opennslSwitchBstEnable, 0)` first; its calls `ctl`
start with the read of unit 0, are all reads of `opennslSwitchBstEnable` or
writes of the value 0 to it, and are followed by at most the one
`bufmon_trigger_callback` call and by nothing else. -/
theorem bst_switch_event_callback_disarms_first (P : Platform) (hw : Hw)
    (asic event bid port cosq : Int) (cookie : Nat) (tr : Trace) :
    ∃ ctl tail,
      bst_switch_control_set P hw P.opennslSwitchBstEnable 0 tr = tr ++ ctl ∧
      bst_switch_event_callback P hw asic event bid port cosq cookie tr = tr ++ ctl ++ tail ∧
      ctl.head? = some (.opennsl_switch_control_get 0 P.opennslSwitchBstEnable) ∧
      (∀ c ∈ ctl, HwCall.is_control P.opennslSwitchBstEnable 0 c = true) ∧
      (tail = [] ∨ tail = [.bufmon_trigger_callback]) := by
  obtain ⟨ctl, hctl, hhead, hall⟩ :=
    bst_switch_control_set_calls P hw P.opennslSwitchBstEnable 0 tr
  unfold bst_switch_event_callback
  simp only [hctl]
  split_ifs
  · exact ⟨ctl, [.bufmon_trigger_callback], rfl, rfl, hhead, hall, Or.inr rfl⟩
  · exact ⟨ctl, [], rfl, by simp, hhead, hall, Or.inl rfl⟩
  · exact ⟨ctl, [], rfl, by simp, hhead, hall, Or.inl rfl⟩

theorem event_register_enable_fold (us : List Nat) (s : TriggerState) (hne : us ≠ []) :
    us.foldl (bst_switch_event_register_body true) s =
      ⟨true, s.trace ++ us.map (fun u : Nat => HwCall.opennsl_switch_event_register (u : Int))⟩ := by
  induction us generalizing s with
  | nil => exact absurd rfl hne
  | cons u us ih =>
    rw [List.foldl_cons]
    by_cases hus : us = []
    · subst hus
      simp [bst_switch_event_register_body]
    · rw [ih _ hus]
      simp [bst_switch_event_register_body]

theorem event_register_enable (P : Platform) (s : TriggerState) :
    bst_switch_event_register P true s =
      ⟨true, s.trace ++ (List.range (P.MAX_SWITCH_UNIT_ID + 1)).map
        (fun u : Nat => HwCall.opennsl_switch_event_register (u : Int))⟩ :=
  event_register_enable_fold _ s (by simp)

theorem event_register_count (n u : Nat) (hu : u < n) :
    ((List.range n).map (fun v : Nat => HwCall.opennsl_switch_event_register (v : Int))).count
      (.opennsl_switch_event_register u) = 1 := by
  have hinj : Function.Injective
      (fun v : Nat => HwCall.opennsl_switch_event_register (v : Int)) := by
    intro a b hab
    simpa using hab
  apply List.count_eq_one_of_mem
  · exact (List.nodup_range n).map hinj
  · exact List.mem_map_of_mem
      (fun v : Nat => HwCall.opennsl_switch_event_register (v : Int)) (List.mem_range.mpr hu)

/-- Counterexample to C7 as stated: after two enables unit 0 does not have
exactly one registration. -/
theorem event_register_twice_counterexample :
    ¬ (bst_switch_event_register P0 true
        (bst_switch_event_register P0 true TriggerState.init)).trace.count
          (.opennsl_switch_event_register 0) = 1 := by
  decide

/-- C7, as amended: from the initial state, two calls of
`bst_switch_event_register(true)` in a row issue
`opennsl_switch_event_register` twice for every unit
`0 .. MAX_SWITCH_UNIT_ID`, once per unit in each call; the trace holds
nothing else, and `event_registered` is true. -/
theorem event_register_twice (P : Platform) :
    bst_switch_event_register P true (bst_switch_event_register P true TriggerState.init) =
      ⟨true,
        (List.range (P.MAX_SWITCH_UNIT_ID + 1)).map
            (fun u : Nat => HwCall.opennsl_switch_event_register (u : Int)) ++
          (List.range (P.MAX_SWITCH_UNIT_ID + 1)).map
            (fun u : Nat => HwCall.opennsl_switch_event_register (u : Int))⟩ ∧
    ∀ u : Nat, u ≤ P.MAX_SWITCH_UNIT_ID →
      (bst_switch_event_register P true
        (bst_switch_event_register P true TriggerState.init)).trace.count
          (.opennsl_switch_event_register u) = 2 := by
  have h : bst_switch_event_register P true
      (bst_switch_event_register P true TriggerState.init) =
      ⟨true,
        (List.range (P.MAX_SWITCH_UNIT_ID + 1)).map
            (fun u : Nat => HwCall.opennsl_switch_event_register (u : Int)) ++
          (List.range (P.MAX_SWITCH_UNIT_ID + 1)).map
            (fun u : Nat => HwCall.opennsl_switch_event_register (u : Int))⟩ := by
    rw [event_register_enable, event_register_enable]
    simp [TriggerState.init]
  refine ⟨h, fun u hu => ?_⟩
  rw [h, List.count_append, event_register_count _ u (by omega)]

/-- The statement of C7, as amended, on unit 1 of a two-unit platform. -/
theorem event_register_twice_witness :
    (bst_switch_event_register P0 true
      (bst_switch_event_register P0 true TriggerState.init)).trace.count
        (.opennsl_switch_event_register 1) = 2 :=
  (event_register_twice P0).2 1 (by decide)

theorem event_register_disable_fold (us : List Nat) (tr : Trace) :
    us.foldl (bst_switch_event_register_body false) ⟨false, tr⟩ = ⟨false, tr⟩ := by
  induction us with
  | nil => rfl
  | cons u us ih => simpa [bst_switch_event_register_body] using ih

/-- On any platform, `bst_switch_event_register(false)` after
`bst_switch_event_register(true)` unregisters unit 0 only: the first
iteration clears `event_registered`, which guards the later ones. -/
theorem event_register_disable_after_enable (P : Platform) (s : TriggerState) :
    bst_switch_event_register P false (bst_switch_event_register P true s) =
      ⟨false, s.trace ++ (List.range (P.MAX_SWITCH_UNIT_ID + 1)).map
          (fun u : Nat => HwCall.opennsl_switch_event_register (u : Int)) ++
        [.opennsl_switch_event_unregister 0]⟩ := by
  rw [event_register_enable]
  unfold bst_switch_event_register
  rw [List.range_succ_eq_map, List.foldl_cons]
  simp only [bst_switch_event_register_body, Bool.false_eq_true, if_false, Bool.not_false,
    Bool.and_self, if_true]
  rw [event_register_disable_fold]
  simp

/-- C8 at the failing input, a platform with two units
(`MAX_SWITCH_UNIT_ID = 1`): enable then disable registers the callback on
units 0 and 1 and unregisters it on unit 0 only, leaving `event_registered`
false while unit 1 is still registered. -/
theorem event_register_disable_two_units :
    bst_switch_event_register P0 false
        (bst_switch_event_register P0 true TriggerState.init) =
      ⟨false, [.opennsl_switch_event_register 0, .opennsl_switch_event_register 1,
        .opennsl_switch_event_unregister 0]⟩ := by
  decide

/-- The statement of C9, as amended, on two units with failing writes. -/
theorem bst_switch_control_set_stops_at_failed_write_witness :
    ∃ k, k ≤ P0.MAX_SWITCH_UNIT_ID + 1 ∧
      bst_switch_control_set P0 hw_write_fails 100 0 [] =
        [] ++ sweep_units hw_write_fails 100 0 (List.range k) [] ∧
      (∀ j, j + 1 < k →
        write_fails hw_write_fails 100 0
          ([] ++ sweep_units hw_write_fails 100 0 (List.range j) []) j = false) ∧
      (k ≤ P0.MAX_SWITCH_UNIT_ID → ∃ j, k = j + 1 ∧
        write_fails hw_write_fails 100 0
          ([] ++ sweep_units hw_write_fails 100 0 (List.range j) []) j = true) :=
  bst_switch_control_set_stops_at_failed_write P0 hw_write_fails 100 0 []

theorem no_stat_call_nil (tr : Trace) :
    ∃ new, tr = tr ++ new ∧ ∀ c ∈ new, HwCall.is_stat_get_or_profile_set c = false :=
  ⟨[], by simp, by simp⟩

theorem no_stat_call_gport (tr : Trace) (u p : Int) :
    ∃ new, tr ++ [HwCall.opennsl_port_gport_get u p] = tr ++ new ∧
      ∀ c ∈ new, HwCall.is_stat_get_or_profile_set c = false :=
  ⟨[.opennsl_port_gport_get u p], rfl, by simp [HwCall.is_stat_get_or_profile_set]⟩

/-- The five handlers that check the return code of `opennsl_port_gport_get`
return on its failure: the counter is unchanged and neither a statistic get
nor a profile set is issued. -/
theorem port_resolution_failure_aborts (hw : Hw)
    (hfail : ∀ h u p, (hw.port_gport_get h u p).1 ≠ OPENNSL_E_NONE)
    (h : Handler)
    (hh : h ∈ [ingress_port_priority_group_stats, ingress_port_service_pool_stats,
      egress_unicast_stats, egress_multicast_stats, egress_port_service_pool_stats])
    (statid : Int) (type : counter_operations_t) (counter : bufmon_counter_info_t)
    (tr : Trace) :
    (h hw statid type counter tr).1 = counter ∧
    ∃ new, (h hw statid type counter tr).2 = tr ++ new ∧
      ∀ c ∈ new, HwCall.is_stat_get_or_profile_set c = false := by
  have hchk : ∀ h u p, OPENNSL_RV_ERROR_CHECK (hw.port_gport_get h u p).1 = true := by
    intro h u p
    simp [OPENNSL_RV_ERROR_CHECK, hfail h u p]
  simp only [List.mem_cons, List.mem_singleton, List.not_mem_nil, or_false] at hh
  rcases hh with rfl | rfl | rfl | rfl | rfl
  all_goals
    simp only [ingress_port_priority_group_stats, ingress_port_service_pool_stats,
      egress_unicast_stats, egress_multicast_stats, egress_port_service_pool_stats,
      hchk, hfail, ne_eq, not_false_eq_true, if_true]
    repeat' split
    all_goals
      refine ⟨rfl, ?_⟩
      first
        | exact no_stat_call_nil _
        | exact no_stat_call_gport _ _ _

/-- C11 at the failing input: `egress_cpu_stats` on a counter with
`queue = 3`, with a port resolution that fails with -1 and leaves 555 in
`gport`.  A `GET_COUNTER_VALUE` still issues the statistic get, at handle 555,
and overwrites `counter_value`; a `SET_COUNTER_THRESHOLD` still issues the
profile set. -/
theorem egress_cpu_stats_ignores_port_failure :
    egress_cpu_stats hw_gport_fails 8 .GET_COUNTER_VALUE counter_cpu [] =
      ({ counter_cpu with counter_value := 7 },
        [.opennsl_port_gport_get 0 0, .opennsl_cosq_bst_stat_get 0 555 2 8 0]) ∧
    egress_cpu_stats hw_gport_fails 8 .SET_COUNTER_THRESHOLD counter_cpu [] =
      (counter_cpu,
        [.opennsl_port_gport_get 0 0, .opennsl_cosq_bst_profile_set 0 555 2 8 5]) := by
  decide

theorem smap_get_int_absent (smap : List (String × Int)) (key : String)
    (h : smap.lookup key = none) : smap_get_int smap key INVALID = INVALID := by
  simp [smap_get_int, h]

/-- C12: for every realm family and both operations, if one of the
parameters the family requires yields the sentinel -1 (as an absent key
does), the handler returns the counter unchanged and adds no call to the
trace.  The device-global family has an empty list of required parameters,
and its `GET_COUNTER_VALUE` issues the statistic get whatever the bag
holds. -/
theorem missing_param_aborts (hw : Hw) (statid : Int) (type : counter_operations_t)
    (counter : bufmon_counter_info_t) (tr : Trace) :
    (∀ h keys key, (h, keys) ∈ required_params → key ∈ keys →
      smap_get_int counter.counter_vendor_specific_info key INVALID = INVALID →
      h hw statid type counter tr = (counter, tr)) ∧
    (∀ key, counter.counter_vendor_specific_info.lookup key = none →
      smap_get_int counter.counter_vendor_specific_info key INVALID = INVALID) ∧
    (device_data_stats, []) ∈ required_params ∧
    (device_data_stats hw statid .GET_COUNTER_VALUE counter tr).2 =
      tr ++ [.opennsl_cosq_bst_stat_get counter.hw_unit_id 0 0 statid 0] := by
  refine ⟨?_, fun key hk => smap_get_int_absent _ key hk, by simp [required_params], ?_⟩
  · intro h keys key hrow hkey habs
    have hv : INPUT_PARAM_VALIDATE INVALID = true := by simp [INPUT_PARAM_VALIDATE]
    simp only [required_params, List.mem_cons, List.mem_singleton, List.not_mem_nil,
      or_false, Prod.mk.injEq] at hrow
    casesm* _ ∨ _, _ ∧ _
    all_goals
      subst_vars
      simp only [List.mem_cons, List.mem_singleton, List.not_mem_nil, or_false] at hkey
    all_goals
      first
        | exact absurd hkey id
        | (rcases hkey with rfl | rfl <;>
            simp [ingress_port_priority_group_stats, ingress_port_service_pool_stats,
              egress_port_service_pool_stats, habs, hv])
        | (subst hkey
           simp [ingress_service_pool_stats, egress_service_pool_stats, egress_unicast_stats,
              egress_multicast_stats, egress_cpu_stats, egress_rqe_queue_stats,
              egress_unicast_queue_group_stats, habs, hv])
  · simp [device_data_stats, final_rv_check_eq, bst_stat_get_or_profile_set]

/-- The statement of C12 on a port and priority-group counter whose bag has no
`priority-group`. -/
theorem missing_param_aborts_witness :
    ingress_port_priority_group_stats hw_ok 5 .GET_COUNTER_VALUE counter_no_pg [] =
      (counter_no_pg, []) :=
  (missing_param_aborts hw_ok 5 .GET_COUNTER_VALUE counter_no_pg []).1
    ingress_port_priority_group_stats ["port", "priority-group"] "priority-group"
    (by simp [required_params]) (by simp) (by decide)

theorem exists_first_match (p : realm_helper_t → Prop) (l : List realm_helper_t)
    (h : ∃ e ∈ l, p e) :
    ∃ i e, l.get? i = some e ∧ p e ∧ ∀ j f, j < i → l.get? j = some f → ¬ p f := by
  induction l with
  | nil => simp at h
  | cons a as ih =>
    by_cases ha : p a
    · exact ⟨0, a, rfl, ha, fun j f hj => absurd hj (Nat.not_lt_zero j)⟩
    · obtain ⟨e, he, hpe⟩ := h
      have hmem : e ∈ as := by
        rcases List.mem_cons.mp he with rfl | h'
        · exact absurd hpe ha
        · exact h'
      obtain ⟨i, e', hi, hpe', hfirst⟩ := ih ⟨e, hmem, hpe⟩
      refine ⟨i + 1, e', by simpa using hi, hpe', ?_⟩
      intro j f hj hf
      cases j with
      | zero =>
        simp only [List.get?_cons_zero, Option.some.injEq] at hf
        subst hf
        exact ha
      | succ j => exact hfirst j f (by omega) (by simpa using hf)

theorem get_realm_stat_id_loop_first (P : Platform) (str : String)
    (l : List realm_helper_t) (i : Nat) (e : realm_helper_t)
    (hi : l.get? i = some e) (hmatch : e.realm.data <:+: str.data)
    (hfirst : ∀ j f, j < i → l.get? j = some f → ¬ f.realm.data <:+: str.data) :
    get_realm_stat_id_loop P str l = P.bst_stat_id e.statid := by
  induction l generalizing i with
  | nil => simp at hi
  | cons a as ih =>
    cases i with
    | zero =>
      simp only [List.get?_cons_zero, Option.some.injEq] at hi
      subst hi
      rw [get_realm_stat_id_loop, if_pos ((strstr_isSome_iff _ _).mpr hmatch)]
    | succ i =>
      have ha : ¬ (strstr str.data a.realm.data).isSome = true := fun hs =>
        hfirst 0 a (Nat.succ_pos i) rfl ((strstr_isSome_iff _ _).mp hs)
      rw [get_realm_stat_id_loop, if_neg ha]
      exact ih i hi (fun j f hj hf => hfirst (j + 1) f (Nat.succ_lt_succ hj) hf)

theorem bst_stat_id_ne_invalid (P : Platform) (hpos : ∀ s, 0 ≤ P.bst_stat_id s)
    (s : opennsl_bst_stat_id_t) : P.bst_stat_id s ≠ INVALID := by
  have := hpos s
  unfold INVALID
  omega

/-- C15: `get_realm_stat_id(name)` returns the statid of the lowest-index entry
of `realm_list` whose realm string is a substring of `name`; and, the
enumerators of `opennsl_bst_stat_id_t` being non-negative, it returns
`INVALID` exactly when no entry's realm string is a substring of `name`. -/
theorem get_realm_stat_id_first_match (P : Platform) (name : String)
    (hpos : ∀ s, 0 ≤ P.bst_stat_id s) :
    (∀ i e, realm_list.get? i = some e → e.realm.data <:+: name.data →
      (∀ j f, j < i → realm_list.get? j = some f → ¬ f.realm.data <:+: name.data) →
      get_realm_stat_id P name = P.bst_stat_id e.statid) ∧
    (get_realm_stat_id P name = INVALID ↔
      ∀ e ∈ realm_list, ¬ e.realm.data <:+: name.data) := by
  refine ⟨fun i e hi hm hf => get_realm_stat_id_loop_first P name realm_list i e hi hm hf,
    fun hinv e he hm => ?_, fun hno => get_realm_stat_id_loop_none P name realm_list hno⟩
  obtain ⟨i, e', hi, hm', hfirst⟩ :=
    exists_first_match (fun f => f.realm.data <:+: name.data) realm_list ⟨e, he, hm⟩
  have := get_realm_stat_id_loop_first P name realm_list i e' hi hm' hfirst
  rw [get_realm_stat_id] at hinv
  rw [hinv] at this
  exact bst_stat_id_ne_invalid P hpos e'.statid this.symm

theorem P0_bst_stat_id_nonneg : ∀ s, 0 ≤ P0.bst_stat_id s :=
  fun s => Int.ofNat_nonneg s.toCtorIdx

theorem cpu_entry_first (name : String)
    (hname : name = "egress-cpu-queue/cpu-buffer-count") :
    ∀ j f, j < 11 → realm_list.get? j = some f → ¬ f.realm.data <:+: name.data := by
  subst hname
  intro j f hj hf
  interval_cases j <;> simp [realm_list] at hf <;> subst hf <;> decide

/-- The statement of C15 on the name of the CPU queue realm: the statid is that
of entry 11. -/
theorem get_realm_stat_id_first_match_witness :
    get_realm_stat_id P0 "egress-cpu-queue/cpu-buffer-count" = 8 :=
  (get_realm_stat_id_first_match P0 "egress-cpu-queue/cpu-buffer-count"
      P0_bst_stat_id_nonneg).1 11
    ⟨"egress-cpu-queue/cpu-buffer-count", .opennslBstStatIdMcast, egress_cpu_stats⟩ rfl
    (List.infix_refl _) (cpu_entry_first _ rfl)

/-- C13: for a counter whose name contains a realm string, with `e` the
lowest-index entry of `realm_list` whose realm string is a substring of the
name and `i` its index, `get_realm_index(get_realm_stat_id(name), name)` is
`i` and `handle_bufmon_counter_mgmt` is one call of the handler of `e` with
the statid of `e`.  Such an entry exists whenever some realm string is a
substring of the name.  The enumerators of `opennsl_bst_stat_id_t` are taken
to be non-negative. -/
theorem handle_bufmon_counter_mgmt_routes (P : Platform) (hw : Hw)
    (counter : bufmon_counter_info_t) (type : counter_operations_t) (tr : Trace)
    (name : String) (hpos : ∀ s, 0 ≤ P.bst_stat_id s) (hname : counter.name = some name) :
    (∀ i e, realm_list.get? i = some e → e.realm.data <:+: name.data →
      (∀ j f, j < i → realm_list.get? j = some f → ¬ f.realm.data <:+: name.data) →
      get_realm_index P (get_realm_stat_id P name) name = (i : Int) ∧
      handle_bufmon_counter_mgmt P hw counter type tr =
        e.bufmon_counter_handler hw (P.bst_stat_id e.statid) type counter tr) ∧
    ((∃ e ∈ realm_list, e.realm.data <:+: name.data) →
      ∃ i e, realm_list.get? i = some e ∧ e.realm.data <:+: name.data ∧
        ∀ j f, j < i → realm_list.get? j = some f → ¬ f.realm.data <:+: name.data) := by
  refine ⟨?_, exists_first_match (fun f => f.realm.data <:+: name.data) realm_list⟩
  intro i e hi hm hfirst
  have hsid : get_realm_stat_id P name = P.bst_stat_id e.statid :=
    get_realm_stat_id_loop_first P name realm_list i e hi hm hfirst
  have hidx : get_realm_index P (P.bst_stat_id e.statid) name = (i : Int) := by
    have := get_realm_index_loop_first P (P.bst_stat_id e.statid) name realm_list 0 i e hi
      ⟨hm, rfl⟩ (fun j f hj hf hboth => hfirst j f hj hf hboth.1)
    simpa [get_realm_index] using this
  have hlt : i < 14 := by
    obtain ⟨h, _⟩ := List.get?_eq_some.mp hi
    simpa [realm_list] using h
  refine ⟨by rw [hsid, hidx], ?_⟩
  have hv1 : INPUT_PARAM_VALIDATE (P.bst_stat_id e.statid) = false := by
    simpa [INPUT_PARAM_VALIDATE] using bst_stat_id_ne_invalid P hpos e.statid
  have hv2 : INPUT_PARAM_VALIDATE (i : Int) = false := by
    simp only [INPUT_PARAM_VALIDATE, INVALID, beq_eq_false_iff_ne, ne_eq]
    omega
  have hmod : ((i : Int) % 2 ^ 32 < (MAX_STATS : Int)) := by
    rw [MAX_STATS_eq]
    omega
  simp only [handle_bufmon_counter_mgmt, hname, hsid, hidx, hv1, hv2, hmod, Int.toNat_ofNat,
    hi, Bool.false_eq_true, if_false, if_true]

/-- The statement of C13 on the CPU queue counter: entry 11 is chosen, so the
handler is `egress_cpu_stats` with the statid shared with the multicast
entry. -/
theorem handle_bufmon_counter_mgmt_routes_witness :
    handle_bufmon_counter_mgmt P0 hw_ok counter_cpu .GET_COUNTER_VALUE [] =
        egress_cpu_stats hw_ok 8 .GET_COUNTER_VALUE counter_cpu [] ∧
      egress_cpu_stats hw_ok 8 .GET_COUNTER_VALUE counter_cpu [] ≠
        egress_multicast_stats hw_ok 8 .GET_COUNTER_VALUE counter_cpu [] :=
  ⟨((handle_bufmon_counter_mgmt_routes P0 hw_ok counter_cpu .GET_COUNTER_VALUE []
      "egress-cpu-queue/cpu-buffer-count" P0_bst_stat_id_nonneg rfl).1 11
    ⟨"egress-cpu-queue/cpu-buffer-count", .opennslBstStatIdMcast, egress_cpu_stats⟩ rfl
    (List.infix_refl _) (cpu_entry_first _ rfl)).2, by decide⟩

theorem foldl_append_map {α : Type} (f : α → HwCall) (l : List α) (t : Trace) :
    l.foldl (fun t2 e => t2 ++ [f e]) t = t ++ l.map f := by
  induction l generalizing t with
  | nil => simp
  | cons a as ih => simp [ih]

theorem foldl_append_flatMap {α : Type} (g : α → Trace) (l : List α) (t : Trace) :
    l.foldl (fun t2 u => t2 ++ g u) t = t ++ l.flatMap g := by
  induction l generalizing t with
  | nil => simp
  | cons a as ih => simp [ih]

theorem length_flatMap_const {α : Type} (g : α → Trace) (n : Nat) (l : List α)
    (hg : ∀ u, (g u).length = n) : (l.flatMap g).length = l.length * n := by
  induction l with
  | nil => simp
  | cons a as ih =>
    simp only [List.flatMap_cons, List.length_append, hg, ih, List.length_cons]
    rw [Nat.succ_mul, Nat.add_comm]

/-- C16: whatever `opennsl_cosq_bst_stat_sync` returns, `realm_sync_all` adds to
the trace one sync call for every unit `0 .. MAX_SWITCH_UNIT_ID` and every
entry of `realm_list`, units outermost and entries in table order, which is
`(MAX_SWITCH_UNIT_ID + 1) * 14` calls. -/
theorem realm_sync_all_calls (P : Platform) (sync_rv : Trace → Int → Int → Int)
    (tr : Trace) :
    realm_sync_all P sync_rv tr =
      tr ++ (List.range (P.MAX_SWITCH_UNIT_ID + 1)).flatMap
        (fun u : Nat => realm_list.map
          (fun e => HwCall.opennsl_cosq_bst_stat_sync (u : Int) (P.bst_stat_id e.statid))) ∧
    ((List.range (P.MAX_SWITCH_UNIT_ID + 1)).flatMap
        (fun u : Nat => realm_list.map
          (fun e => HwCall.opennsl_cosq_bst_stat_sync (u : Int) (P.bst_stat_id e.statid)))).length
      = (P.MAX_SWITCH_UNIT_ID + 1) * 14 := by
  constructor
  · unfold realm_sync_all
    simp only [foldl_append_map]
    exact foldl_append_flatMap _ _ tr
  · rw [length_flatMap_const _ 14 _ (fun u => by simp [realm_list]), List.length_range]

/-- C17: when the underlying `opennsl_switch_control_get` fails and stores
nothing through the output pointer, `bst_switch_control_get` yields 0,
whatever the output variable held before. -/
theorem bst_switch_control_get_failure_default (hw : Hw) (unit type value : Int)
    (tr : Trace)
    (hfail : (hw.switch_control_get tr unit type).1 ≠ OPENNSL_E_NONE)
    (hnone : (hw.switch_control_get tr unit type).2 = none) :
    (bst_switch_control_get hw unit type value tr).1 = 0 := by
  have _ := hfail
  simp [bst_switch_control_get, hnone]

/-- The statement of C17 on a failing read with 99 in the output variable. -/
theorem bst_switch_control_get_failure_default_witness :
    (bst_switch_control_get hw_read_fails 1 100 99 []).1 = 0 :=
  bst_switch_control_get_failure_default hw_read_fails 1 100 99 [] (by decide) rfl

theorem sweep_units_snoc (hw : Hw) (type arg : Int) (us : List Nat) (u : Nat) (h : Trace) :
    sweep_units hw type arg (us ++ [u]) h =
      sweep_units hw type arg us h ++
        visit_unit hw type arg (h ++ sweep_units hw type arg us h) u := by
  induction us generalizing h with
  | nil => simp [sweep_units]
  | cons v vs ih => simp [sweep_units, ih, List.append_assoc]

theorem read_fails_value (hw : Hw) (type : Int) (h : Trace) (u : Nat)
    (hf : read_fails hw type h u = true) : (bst_switch_control_get hw u type 0 h).1 = 0 := by
  simp only [read_fails, Bool.and_eq_true, Option.isNone_iff_eq_none] at hf
  simp [bst_switch_control_get, hf.2]

/-- Counterexample to C18 as stated: on two units whose control reads fail
with -1 after storing 1, `bst_switch_control_set(100, 0)` writes both
units, although their reads failed. -/
theorem bst_switch_control_set_zero_counterexample :
    (hw_read_fails_stores.switch_control_get [] 0 100).1 ≠ OPENNSL_E_NONE ∧
      bst_switch_control_set P0 hw_read_fails_stores 100 0 [] =
        [.opennsl_switch_control_get 0 100, .opennsl_switch_control_set 0 100 0,
          .opennsl_switch_control_get 1 100, .opennsl_switch_control_set 1 100 0] := by
  decide

/-- C18, as amended: `bst_switch_control_set(type, 0)` performs the sweep over
units `0 .. k-1`, with `1 ≤ k`, and with `k` the number of units unless a
write fails at unit `k-1`; a visited unit whose control read fails and stores
nothing through the output pointer contributes its read only, with no
write, and is never the unit at which the loop ends early: unless it is the
last unit, the next unit is visited too. -/
theorem bst_switch_control_set_zero_skips_failed_read (P : Platform) (hw : Hw) (type : Int)
    (tr : Trace) :
    ∃ k, 1 ≤ k ∧ k ≤ P.MAX_SWITCH_UNIT_ID + 1 ∧
      bst_switch_control_set P hw type 0 tr =
        tr ++ sweep_units hw type 0 (List.range k) tr ∧
      (k ≤ P.MAX_SWITCH_UNIT_ID → ∃ j, k = j + 1 ∧
        write_fails hw type 0 (tr ++ sweep_units hw type 0 (List.range j) tr) j = true) ∧
      ∀ j, j < k →
        read_fails hw type (tr ++ sweep_units hw type 0 (List.range j) tr) j = true →
        sweep_units hw type 0 (List.range (j + 1)) tr =
            sweep_units hw type 0 (List.range j) tr ++ [.opennsl_switch_control_get j type] ∧
          (j < P.MAX_SWITCH_UNIT_ID → j + 1 < k) := by
  obtain ⟨k, hpos, hk, hrun, hstop⟩ := bst_switch_control_set_sweep_pos P hw type 0 tr
  refine ⟨k, hpos, hk, hrun, hstop, fun j hj hf => ⟨?_, fun hjmax => ?_⟩⟩
  · rw [List.range_succ, sweep_units_snoc]
    simp [visit_unit, read_fails_value hw type _ j hf]
  · by_contra hnot
    obtain ⟨j', hkj, hwf⟩ := hstop (by omega)
    have hjj : j' = j := by omega
    subst hjj
    simp [write_fails, read_fails_value hw type _ j' hf] at hwf

/-- The statement of C18, as amended, on two units whose reads fail and store
nothing: both are read, neither is written. -/
theorem bst_switch_control_set_zero_skips_failed_read_witness :
    bst_switch_control_set P0 hw_read_fails 100 0 [] =
      [.opennsl_switch_control_get 0 100, .opennsl_switch_control_get 1 100] := by
  obtain ⟨k, h0, hk, hrun, _, hskip⟩ :=
    bst_switch_control_set_zero_skips_failed_read P0 hw_read_fails 100 []
  have h1 : 1 < k := (hskip 0 (by omega) (by decide)).2 (by decide)
  have hk2 : k = 2 := by
    have : P0.MAX_SWITCH_UNIT_ID = 1 := rfl
    omega
  subst hk2
  rw [hrun]
  decide

/-- Counterexample to C19 as stated: on two units whose controls read 1 and
whose control writes fail, an interrupt reported by unit 1 makes the callback
read and write unit 0 only; unit 1 is not swept. -/
theorem bst_switch_event_callback_counterexample :
    bst_switch_event_callback P0 hw_write_fails 1 200 8 0 0 1 [] =
        [.opennsl_switch_control_get 0 100, .opennsl_switch_control_set 0 100 0,
          .bufmon_trigger_callback] ∧
      HwCall.opennsl_switch_control_get 1 100 ∉
        bst_switch_event_callback P0 hw_write_fails 1 200 8 0 0 1 [] := by
  decide

/-- C19, as amended: two invocations of `bst_switch_event_callback` that
differ only in `asic`, `port`, `cosq` or `cookie` produce the same trace, so
the same calls and the same notification decision; the disarm is the sweep of
`bst_switch_control_set` over the units `0 .. k-1` in order, followed by at
most the notification, where `k` is the number of units unless a control
write returns an error, which ends the sweep at that unit. -/
theorem bst_switch_event_callback_unit_independent (P : Platform) (hw : Hw)
    (event bid : Int) (tr : Trace) (asic port cosq : Int) (cookie : Nat)
    (asic' port' cosq' : Int) (cookie' : Nat) :
    bst_switch_event_callback P hw asic event bid port cosq cookie tr =
      bst_switch_event_callback P hw asic' event bid port' cosq' cookie' tr ∧
    ∃ k tail, k ≤ P.MAX_SWITCH_UNIT_ID + 1 ∧
      bst_switch_event_callback P hw asic event bid port cosq cookie tr =
        tr ++ sweep_units hw P.opennslSwitchBstEnable 0 (List.range k) tr ++ tail ∧
      (tail = [] ∨ tail = [.bufmon_trigger_callback]) ∧
      (k ≤ P.MAX_SWITCH_UNIT_ID → ∃ j, k = j + 1 ∧
        write_fails hw P.opennslSwitchBstEnable 0
          (tr ++ sweep_units hw P.opennslSwitchBstEnable 0 (List.range j) tr) j = true) := by
  refine ⟨rfl, ?_⟩
  obtain ⟨k, hk, hrun, _, hstop⟩ :=
    bst_switch_control_set_sweep P hw P.opennslSwitchBstEnable 0 tr
  unfold bst_switch_event_callback
  simp only [hrun]
  split_ifs
  · exact ⟨k, [.bufmon_trigger_callback], hk, rfl, Or.inr rfl, hstop⟩
  · exact ⟨k, [], hk, by simp, Or.inl rfl, hstop⟩
  · exact ⟨k, [], hk, by simp, Or.inl rfl, hstop⟩

/-- The statement of C19, as amended, on interrupts reported by units 0
and 1. -/
theorem bst_switch_event_callback_unit_independent_witness :
    bst_switch_event_callback P0 hw_ok 0 200 8 3 4 0 [] =
      bst_switch_event_callback P0 hw_ok 1 200 8 5 6 1 [] :=
  (bst_switch_event_callback_unit_independent P0 hw_ok 200 8 [] 0 3 4 0 1 5 6 1).1

end OpsBufmon
